import Mathlib

/-!
Shallow embedding of the session tracking core of `packages/hub/src/session.ts`
(classes `Session` and `SessionFlusher`) together with the pieces of
`packages/types/src/session.ts` they rely on.  JavaScript numbers holding epoch
milliseconds are modelled as `Int`; `undefined`-able fields as `Option`;
JavaScript string truthiness (`""` is falsy) and `x || y` are modelled
explicitly.
-/

namespace Sentry

/-- JavaScript truthiness of a `string | undefined` value: present and non-empty. -/
def truthyStr : Option String → Bool
  | some s => s ≠ ""
  | none => false

/-- JavaScript `a || b` on `string | undefined` values: `a` if truthy, else `b`. -/
def orStr (a b : Option String) : Option String :=
  match a with
  | some s => if s = "" then b else some s
  | none => b

/-- JavaScript `a || b` where `a` is a `number | undefined` and `b` a number:
`0` (and `undefined`) are falsy. -/
def jsOrNum (a : Option Int) (b : Int) : Int :=
  match a with
  | some t => if t = 0 then b else t
  | none => b

/-- JavaScript `String.prototype.length`: the number of UTF-16 code units. -/
def jsLength (s : String) : Nat :=
  s.data.foldl (fun n c => n + (if c.val < 0x10000 then 1 else 2)) 0

/-- Model of the JavaScript builtin `Date.prototype.toISOString`, kept as an
injective encoding of the epoch-millis value: no claim in this development
depends on the concrete ISO-8601 text, only on which instant it denotes. -/
def toISOString (ms : Int) : String :=
  "ISO(" ++ toString ms ++ ")"

/-- Modelled from the spec: `uuid4` from the utils package is not under `src/`;
the spec describes the generated session id as a fresh 32-character id, so the
model fixes one 32-character hex string as the generator's output. -/
def uuid4 : String :=
  "0123456789abcdef0123456789abcdef"

/-- `SessionStatus` enum from `packages/types/src/session.ts`. -/
inductive SessionStatus where
  | Ok
  | Exited
  | Crashed
  | Abnormal
deriving DecidableEq, Repr

/-- `SessionMode` enum from `packages/types/src/session.ts`. -/
inductive SessionMode where
  | Application
  | Request
deriving DecidableEq, Repr

/-- Runtime value stored in `Session.did`: the declared type is
`string | undefined`, but `toJSON` defensively also handles numbers, so the
model keeps both shapes (`Option DidV` with `none` for `undefined`). -/
inductive DidV where
  | str (s : String)
  | num (n : Int)
deriving DecidableEq, Repr

/-- `User` from `packages/types/src/user.ts` (modelled from the spec: only the
four optional string fields read by `Session.update` are needed; the file
itself is not under `src/`). -/
structure User where
  id : Option String := none
  email : Option String := none
  username : Option String := none
  ip_address : Option String := none
deriving DecidableEq, Repr

/-- `SessionContext` from `packages/types/src/session.ts`; every field is
optional.  `user : User | null` collapses `null` and `undefined` into `none`. -/
structure SessionContext where
  sid : Option String := none
  did : Option String := none
  init : Option Bool := none
  timestamp : Option Int := none
  started : Option Int := none
  duration : Option Int := none
  status : Option SessionStatus := none
  release : Option String := none
  environment : Option String := none
  userAgent : Option String := none
  ipAddress : Option String := none
  errors : Option Int := none
  user : Option User := none
  sessionMode : Option SessionMode := none
deriving DecidableEq, Repr

/-- Mutable state of the `Session` class (`packages/hub/src/session.ts`,
lines 18-31). -/
structure Session where
  userAgent : Option String := none
  errors : Int := 0
  release : Option String := none
  sid : String := uuid4
  did : Option DidV := none
  timestamp : Int := 0
  started : Int := 0
  duration : Int := 0
  status : SessionStatus := SessionStatus.Ok
  sessionMode : SessionMode := SessionMode.Application
  environment : Option String := none
  ipAddress : Option String := none
  init : Bool := true
deriving DecidableEq, Repr

/-- Field initializers of the `Session` class at construction time; `now` is
the value of `Date.now()`. -/
def Session.fresh (now : Int) : Session :=
  { sid := uuid4, timestamp := now, started := now }

/-- `Session.update` (session.ts lines 41-93).  The source performs one
assignment per field in sequence; here each final field value is given
directly, preserving the source's precedence:
an explicit truthy `context.ipAddress` (line 78) overrides the one derived
from `context.user.ip_address` (line 43); an explicit truthy `context.did`
(line 61) overrides the user-derived one (line 47, assigned whenever a user is
present and `context.did` is falsy, even when the derived chain is
`undefined`); `duration`, when not explicitly a number, is recomputed from the
just-updated `timestamp` and `started` (lines 67-71).  Enum-typed context
fields (`status`, `sessionMode`) are truthy exactly when present, since every
enum value is a non-empty string. -/
def Session.update (now : Int) (ctx : SessionContext) (s : Session) : Session :=
  let ts : Int := jsOrNum ctx.timestamp now
  let sta : Int := match ctx.started with
    | some v => v
    | none => s.started
  { userAgent := if truthyStr ctx.userAgent then ctx.userAgent else s.userAgent
    errors := match ctx.errors with
      | some e => e
      | none => s.errors
    release := if truthyStr ctx.release then ctx.release else s.release
    sid := match ctx.sid with
      | some v => if v = "" then s.sid else (if jsLength v = 32 then v else uuid4)
      | none => s.sid
    did := if truthyStr ctx.did then ctx.did.map DidV.str
      else match ctx.user with
        | some u => (orStr u.id (orStr u.email u.username)).map DidV.str
        | none => s.did
    timestamp := ts
    started := sta
    duration := match ctx.duration with
      | some d => d
      | none => ts - sta
    status := match ctx.status with
      | some st => st
      | none => s.status
    sessionMode := match ctx.sessionMode with
      | some m => m
      | none => s.sessionMode
    environment := if truthyStr ctx.environment then ctx.environment else s.environment
    ipAddress := if truthyStr ctx.ipAddress then ctx.ipAddress
      else match ctx.user with
        | some u => if truthyStr u.ip_address then u.ip_address else s.ipAddress
        | none => s.ipAddress
    init := match ctx.init with
      | some b => b
      | none => s.init }

/-- `Session.close` (session.ts lines 96-104); `status = none` models a call
with no argument. -/
def Session.close (now : Int) (status : Option SessionStatus) (s : Session) : Session :=
  match status with
  | some st => Session.update now { status := some st } s
  | none =>
      if s.status = SessionStatus.Ok then
        Session.update now { status := some SessionStatus.Exited } s
      else
        Session.update now {} s

/-! JSON wire shape and `toJSON`. -/

/-- Runtime JSON-ish values produced by `Session.toJSON`, with an explicit
`undef` constructor so `dropUndefinedKeys` can be modelled faithfully. -/
inductive JVal where
  | undef : JVal
  | str : String → JVal
  | num : Int → JVal
  | jbool : Bool → JVal
  | obj : List (String × JVal) → JVal

/-- Modelled from the spec: `dropUndefinedKeys` from the utils package is not
under `src/`; per the spec all `undefined`-valued keys are dropped
recursively, including within nested objects.  This is the field-list
traversal: `undefined`-valued keys are skipped, object values are cleaned
recursively, other values are kept as-is. -/
def dropUndefinedFields : List (String × JVal) → List (String × JVal)
  | [] => []
  | (_, JVal.undef) :: rest => dropUndefinedFields rest
  | (k, JVal.str v) :: rest => (k, JVal.str v) :: dropUndefinedFields rest
  | (k, JVal.num n) :: rest => (k, JVal.num n) :: dropUndefinedFields rest
  | (k, JVal.jbool b) :: rest => (k, JVal.jbool b) :: dropUndefinedFields rest
  | (k, JVal.obj fs) :: rest => (k, JVal.obj (dropUndefinedFields fs)) :: dropUndefinedFields rest

/-- Modelled from the spec: top level of `dropUndefinedKeys` — plain objects
get their fields cleaned, any other value is returned unchanged. -/
def dropUndefinedKeys : JVal → JVal
  | JVal.obj fs => JVal.obj (dropUndefinedFields fs)
  | v => v

/-- True when no field of the list (recursively) holds an `undef` value. -/
def noUndefFields : List (String × JVal) → Bool
  | [] => true
  | (_, JVal.undef) :: _ => false
  | (_, JVal.str _) :: rest => noUndefFields rest
  | (_, JVal.num _) :: rest => noUndefFields rest
  | (_, JVal.jbool _) :: rest => noUndefFields rest
  | (_, JVal.obj fs) :: rest => noUndefFields fs && noUndefFields rest

/-- True when a JSON value contains no `undef` anywhere (recursively). -/
def noUndef : JVal → Bool
  | JVal.undef => false
  | JVal.obj fs => noUndefFields fs
  | _ => true

/-- Association-list lookup used by `getField`. -/
def findField (k : String) : List (String × JVal) → Option JVal
  | [] => none
  | (k', v) :: rest => if k' = k then some v else findField k rest

/-- Look a key up in a JSON object (first match); `none` on non-objects. -/
def getField (k : String) : JVal → Option JVal
  | JVal.obj fs => findField k fs
  | _ => none

/-- Wire string of a `SessionStatus` value. -/
def statusToStr : SessionStatus → String
  | SessionStatus.Ok => "ok"
  | SessionStatus.Exited => "exited"
  | SessionStatus.Crashed => "crashed"
  | SessionStatus.Abnormal => "abnormal"

/-- Wire string of a `SessionMode` value. -/
def modeToStr : SessionMode → String
  | SessionMode.Application => "application"
  | SessionMode.Request => "request"

/-- A `string | undefined` value as a JSON value. -/
def optStrJ : Option String → JVal
  | some v => JVal.str v
  | none => JVal.undef

/-- `Session.toJSON` (session.ts lines 107-141): the object literal in source
order, passed through `dropUndefinedKeys`, with the nested `attrs` object
itself passed through `dropUndefinedKeys` first; `did` is emitted (stringified)
only when it is a string or a number, else left `undefined` and hence
dropped. -/
def Session.toJSON (s : Session) : JVal :=
  dropUndefinedKeys (JVal.obj [
    ("sid", JVal.str s.sid),
    ("init", JVal.jbool s.init),
    ("started", JVal.str (toISOString s.started)),
    ("timestamp", JVal.str (toISOString s.timestamp)),
    ("status", JVal.str (statusToStr s.status)),
    ("session_mode", JVal.str (modeToStr s.sessionMode)),
    ("errors", JVal.num s.errors),
    ("did", match s.did with
      | some (DidV.str v) => JVal.str v
      | some (DidV.num n) => JVal.str (toString n)
      | none => JVal.undef),
    ("duration", JVal.num s.duration),
    ("attrs", dropUndefinedKeys (JVal.obj [
      ("release", optStrJ s.release),
      ("environment", optStrJ s.environment),
      ("ip_address", optStrJ s.ipAddress),
      ("user_agent", optStrJ s.userAgent)]))])

/-! SessionFlusher. -/

/-- `AggregationCounts` from `packages/types/src/session.ts`; fields are
optional because the runtime bucket is created as `{}` and filled lazily. -/
structure AggregationCounts where
  started : Option String := none
  errored : Option Int := none
  exited : Option Int := none
  crashed : Option Int := none
  abnormal : Option Int := none
deriving DecidableEq, Repr

/-- The `_sessionAttrs` snapshot `{release?, environment?}`. -/
structure SessionAttrs where
  release : Option String := none
  environment : Option String := none
deriving DecidableEq, Repr

/-- `AggregatedSessions` payload from `packages/types/src/session.ts`. -/
structure AggregatedSessions where
  attrs : Option SessionAttrs := none
  aggregates : List AggregationCounts := []
deriving DecidableEq, Repr

/-- Mutable state of a `SessionFlusher` relevant to aggregation: the
`_pendingAggregates` table and `_sessionAttrs`.  The table is an
insertion-ordered association list: its keys are epoch-millis values far above
2^32, so JavaScript stores them as string keys and `Object.keys` iterates them
in insertion order. -/
structure FlusherState where
  pendingAggregates : List (Int × AggregationCounts) := []
  sessionAttrs : Option SessionAttrs := none
deriving DecidableEq, Repr

/-- Client options read by `incrementSessionCount` via the current hub. -/
structure ClientOptions where
  release : Option String := none
  environment : Option String := none
deriving DecidableEq, Repr

/-- Ambient inputs of one `incrementSessionCount()` call: the active client's
options (if a client exists), the local-timezone offset in milliseconds
(local clock = UTC epoch millis + `tzOffset`), the value of `Date.now()` and
the ambient request-scoped session — `none` when absent, `some st` when
present with status `st` (`none` inside models `undefined`). -/
structure IncrInput where
  clientOptions : Option ClientOptions
  tzOffset : Int
  now : Int
  requestSessionStatus : Option (Option String)

/-- Lookup in the pending-aggregates table. -/
def lookupBucket (k : Int) : List (Int × AggregationCounts) → Option AggregationCounts
  | [] => none
  | (k', v) :: rest => if k' = k then some v else lookupBucket k rest

/-- Write a bucket back: replace in place when the key exists, else append
(JavaScript property creation order for string keys). -/
def setBucket (k : Int) (v : AggregationCounts) :
    List (Int × AggregationCounts) → List (Int × AggregationCounts)
  | [] => [(k, v)]
  | (k', v') :: rest => if k' = k then (k, v) :: rest else (k', v') :: setBucket k v rest

/-- Bucket key computed at session.ts line 205: `new Date().setMinutes(0, 0, 0)`
zeroes the local clock's minutes, seconds and milliseconds — i.e. it truncates
the local time to the top of the HOUR — and returns the corresponding epoch
millis. -/
def sessionStartedTrunc (tzOffset now : Int) : Int :=
  let loc := now + tzOffset
  loc - loc.emod 3600000 - tzOffset

/-- The key the spec describes: "now" with only seconds and milliseconds
zeroed (top of the minute); timezone-independent since offsets are whole
minutes. -/
def minuteTrunc (now : Int) : Int :=
  now - now.emod 60000

/-- `SessionFlusher.incrementSessionCount` (session.ts lines 196-227).
Returns the new flusher state together with the ambient request session's
post-call contents: `none` when no ambient session existed, `some st` when one
existed and its status is now `st` (the code always clears it to
`undefined`). -/
def SessionFlusher.incrementSessionCount (inp : IncrInput) (st : FlusherState) :
    FlusherState × Option (Option String) :=
  let attrs : Option SessionAttrs :=
    match st.sessionAttrs with
    | some a => some a
    | none =>
        let o := inp.clientOptions.getD {}
        some { release := o.release, environment := o.environment }
  let k := sessionStartedTrunc inp.tzOffset inp.now
  let b := (lookupBucket k st.pendingAggregates).getD {}
  let b := if b.started.isNone then { b with started := some (toISOString k) } else b
  match inp.requestSessionStatus with
  | none =>
      ({ pendingAggregates := setBucket k b st.pendingAggregates, sessionAttrs := attrs }, none)
  | some rs =>
      let b :=
        if rs = some "errored" then
          { b with errored := some (b.errored.getD 0 + 1) }
        else
          { b with exited := some (b.exited.getD 0 + 1) }
      ({ pendingAggregates := setBucket k b st.pendingAggregates, sessionAttrs := attrs },
       some none)

/-- `SessionFlusher.flush` (session.ts lines 173-187).  Returns the new state
together with the payload handed to `sendSessions` (`none` when the early
return fires and `sendSessions` is never called). -/
def SessionFlusher.flush (st : FlusherState) : FlusherState × Option AggregatedSessions :=
  if st.pendingAggregates = [] then (st, none)
  else
    ({ pendingAggregates := [], sessionAttrs := none },
     some { attrs := st.sessionAttrs,
            aggregates := st.pendingAggregates.map Prod.snd })

/-! Delivery capability. -/

/-- Settled state of the promise returned by the transport. -/
inductive PromiseResult where
  | resolved
  | rejected (reason : String)

/-- The delivery capability: `sendSessions` is an optional method (the code
probes for it at runtime). -/
structure Transport where
  sendSessions : Option (AggregatedSessions → PromiseResult)

/-- Observable outcome of one `SessionFlusher.sendSessions` call. -/
inductive SendOutcome where
  | warnedAndDropped
  | delivered
  | failureLogged (reason : String)
  | unhandledThrow (reason : String)
deriving DecidableEq, Repr

/-- Promise settlement as observed through `.then(null, onRejected)`: a
rejection with no handler attached would surface as an unhandled throw. -/
def handleProm (p : PromiseResult) (onRejected : Option (String → SendOutcome)) : SendOutcome :=
  match p with
  | PromiseResult.resolved => SendOutcome.delivered
  | PromiseResult.rejected r =>
      match onRejected with
      | some h => h r
      | none => SendOutcome.unhandledThrow r

/-- `SessionFlusher.sendSessions` (session.ts lines 162-170): warn and drop
when the capability is absent, otherwise delegate and attach a
rejection-logging handler. -/
def SessionFlusher.sendSessions (t : Transport) (p : AggregatedSessions) : SendOutcome :=
  match t.sendSessions with
  | none => SendOutcome.warnedAndDropped
  | some f => handleProm (f p) (some fun reason => SendOutcome.failureLogged reason)

/-- Outcome of the delivery capability across one `flush` call: `none` when
`flush` returned early and never invoked `sendSessions`. -/
def flushOutcome (t : Transport) (st : FlusherState) : Option SendOutcome :=
  ((SessionFlusher.flush st).2).map (SessionFlusher.sendSessions t)

/-! Operation sequences over one session. -/

/-- One call in a `Session` call sequence: `update` or `close`, each at a
given `Date.now()` reading. -/
inductive SessionOp where
  | upd (now : Int) (ctx : SessionContext)
  | cls (now : Int) (status : Option SessionStatus)

/-- Run a sequence of `update`/`close` calls left to right. -/
def runOps : List SessionOp → Session → Session
  | [], s => s
  | SessionOp.upd now ctx :: rest, s => runOps rest (Session.update now ctx s)
  | SessionOp.cls now st :: rest, s => runOps rest (Session.close now st s)

/-- A context that supplies none of the explicit time fields. -/
def timeFieldsAbsent (ctx : SessionContext) : Prop :=
  ctx.started = none ∧ ctx.timestamp = none ∧ ctx.duration = none

/-- An operation whose context supplies no explicit time fields (`close` never
does). -/
def opClean : SessionOp → Prop
  | SessionOp.upd _ ctx => timeFieldsAbsent ctx
  | SessionOp.cls _ _ => True

/-- The `Date.now()` reading of an operation. -/
def opNow : SessionOp → Int
  | SessionOp.upd n _ => n
  | SessionOp.cls n _ => n

/-- Run a sequence of `update` calls (pairs of `Date.now()` reading and
context) left to right. -/
def updateSeq : List (Int × SessionContext) → Session → Session
  | [], s => s
  | (now, ctx) :: rest, s => updateSeq rest (Session.update now ctx s)

/-- JavaScript truthiness of a `did` value. -/
def truthyDid : DidV → Bool
  | DidV.str v => v ≠ ""
  | DidV.num n => n ≠ 0

/-- The bucket the current call aggregates into, read from a flusher state
(`{}` when absent, as in the source's `|| {}`). -/
def bucketIn (inp : IncrInput) (st : FlusherState) : AggregationCounts :=
  (lookupBucket (sessionStartedTrunc inp.tzOffset inp.now) st.pendingAggregates).getD {}

/-! Helper lemmas. -/

theorem lookupBucket_setBucket (k : Int) (v : AggregationCounts)
    (l : List (Int × AggregationCounts)) : lookupBucket k (setBucket k v l) = some v := by
  induction l with
  | nil => simp [setBucket, lookupBucket]
  | cons p rest ih =>
      obtain ⟨k', v'⟩ := p
      by_cases hk : k' = k
      · simp [setBucket, lookupBucket, hk]
      · simp [setBucket, lookupBucket, hk, ih]

theorem jsLength_uuid4 : jsLength uuid4 = 32 := by decide

theorem update_duration_eq (now : Int) (ctx : SessionContext) (s : Session)
    (h : ctx.duration = none) :
    (Session.update now ctx s).duration
      = (Session.update now ctx s).timestamp - (Session.update now ctx s).started := by
  simp [Session.update, h]

theorem updateSeq_duration_aux (ops : List (Int × SessionContext)) :
    ∀ s0 : Session, ops ≠ [] → (∀ p ∈ ops, p.2.duration = none) →
    (updateSeq ops s0).duration = (updateSeq ops s0).timestamp - (updateSeq ops s0).started := by
  induction ops with
  | nil => intro s0 hne _; exact absurd rfl hne
  | cons p rest ih =>
      intro s0 _ h
      obtain ⟨now, ctx⟩ := p
      cases rest with
      | nil =>
          have hd : ctx.duration = none := h (now, ctx) (List.mem_cons_self _ _)
          simp only [updateSeq]
          exact update_duration_eq now ctx s0 hd
      | cons q rest' =>
          simp only [updateSeq]
          exact ih (Session.update now ctx s0) (by simp)
            (fun r hr => h r (List.mem_cons_of_mem _ hr))

/-! Claim theorems. -/

/-- C1: the claim says the bucket key is "now" with only seconds and
milliseconds zeroed (top of the minute).  The code (`new
Date().setMinutes(0, 0, 0)`) also zeroes the minutes, truncating to the top of
the hour, contradicting its own comment "to have one minute bucket keys".  At
now = 3660000 ms (1970-01-01T01:01:00.000Z, UTC) the code produces key 3600000
while the claim requires 3660000, and the bucket's `started` string is derived
from the hour-truncated key. -/
theorem c1_bucket_key_truncates_to_hour :
    sessionStartedTrunc 0 3660000 = 3600000
  ∧ minuteTrunc 3660000 = 3660000
  ∧ sessionStartedTrunc 0 3660000 ≠ minuteTrunc 3660000
  ∧ (bucketIn ⟨none, 0, 3660000, some (some "errored")⟩
       (SessionFlusher.incrementSessionCount ⟨none, 0, 3660000, some (some "errored")⟩
         ⟨[], none⟩).1).started
      = some (toISOString 3600000) := by
  decide

/-- C4: `close()` with no argument transitions an `Ok` session to `Exited`,
leaves any other status unchanged while still refreshing `timestamp` and
`duration`, and is idempotent with respect to status. -/
theorem c4_close_status_transition (now : Int) (s : Session) :
    (s.status = SessionStatus.Ok → (Session.close now none s).status = SessionStatus.Exited)
  ∧ (s.status ≠ SessionStatus.Ok → (Session.close now none s).status = s.status)
  ∧ (Session.close now none s).timestamp = now
  ∧ (Session.close now none s).started = s.started
  ∧ (Session.close now none s).duration = now - s.started
  ∧ ∀ now2 : Int, (Session.close now2 none (Session.close now none s)).status
      = (Session.close now none s).status := by
  cases hs : s.status <;>
    simp [Session.close, Session.update, jsOrNum, truthyStr, hs]

/-- C4 witness: a fresh session closed without argument ends up `Exited`. -/
theorem c4_close_witness :
    (Session.close 7 none (Session.fresh 3)).status = SessionStatus.Exited :=
  (c4_close_status_transition 7 (Session.fresh 3)).1 rfl

/-- C5: over any non-empty sequence of updates none of which supplies an
explicit `duration`, the final duration equals the final timestamp minus the
final started value (every prefix of such a sequence is again such a sequence,
so this holds after each update); an explicit numeric `duration` wins over the
recomputation. -/
theorem c5_duration_recomputed_unless_explicit (s0 : Session)
    (ops : List (Int × SessionContext)) (hne : ops ≠ [])
    (h : ∀ p ∈ ops, p.2.duration = none) :
    ((updateSeq ops s0).duration
      = (updateSeq ops s0).timestamp - (updateSeq ops s0).started)
  ∧ ∀ (s : Session) (now d : Int) (ctx : SessionContext), ctx.duration = some d →
      (Session.update now ctx s).duration = d := by
  refine ⟨updateSeq_duration_aux ops s0 hne h, ?_⟩
  intro s now d ctx hd
  simp [Session.update, hd]

/-- C5 witness: one explicit-duration-free update at time 5 of a session
created at time 0. -/
theorem c5_duration_witness :
    (updateSeq [(5, {})] (Session.fresh 0)).duration
      = (updateSeq [(5, {})] (Session.fresh 0)).timestamp
        - (updateSeq [(5, {})] (Session.fresh 0)).started :=
  (c5_duration_recomputed_unless_explicit (Session.fresh 0) [(5, {})]
    (List.cons_ne_nil _ _)
    (by intro p hp; rw [List.mem_singleton] at hp; subst hp; rfl)).1

/-- C6 counterexample: the claim says a supplied `context.sid` that is not 32
characters long causes a fresh id to be generated.  Supplying the empty
string (falsy in JavaScript) skips the whole branch: the old sid is kept and
no fresh id is generated. -/
theorem c6_empty_sid_not_regenerated :
    (Session.update 1 { sid := some "" }
        { Session.fresh 0 with sid := "bbbbbbbbbbbbbbbbbbbbbbbbbbbbbbbb" }).sid
      = "bbbbbbbbbbbbbbbbbbbbbbbbbbbbbbbb"
  ∧ (Session.update 1 { sid := some "" }
        { Session.fresh 0 with sid := "bbbbbbbbbbbbbbbbbbbbbbbbbbbbbbbb" }).sid ≠ uuid4
  ∧ jsLength "" ≠ 32 := by
  decide

/-- C6 amended: starting from a 32-character sid, `update()` always leaves a
32-character sid; a supplied non-empty `context.sid` is accepted as-is exactly
when its length is 32 and replaced by a fresh id otherwise, while a missing or
empty supplied sid leaves the previous sid unchanged (no fresh id is generated
for the empty string). -/
theorem c6_sid_length_invariant_amended (now : Int) (ctx : SessionContext) (s : Session)
    (h : jsLength s.sid = 32) :
    jsLength (Session.update now ctx s).sid = 32
  ∧ (∀ v, ctx.sid = some v → v ≠ "" →
      (Session.update now ctx s).sid = if jsLength v = 32 then v else uuid4)
  ∧ (ctx.sid = none ∨ ctx.sid = some "" → (Session.update now ctx s).sid = s.sid) := by
  refine ⟨?_, ?_, ?_⟩
  · cases hc : ctx.sid with
    | none => simpa [Session.update, hc] using h
    | some v =>
        by_cases hv : v = ""
        · simpa [Session.update, hc, hv] using h
        · by_cases hl : jsLength v = 32
          · simp [Session.update, hc, hv, hl]
          · simp [Session.update, hc, hv, hl, jsLength_uuid4]
  · intro v hc hv
    simp [Session.update, hc, hv]
  · rintro (hc | hc) <;> simp [Session.update, hc]

/-- C6 witness: an update with an empty context keeps the fresh session's sid
at 32 characters. -/
theorem c6_sid_witness :
    jsLength (Session.update 1 {} (Session.fresh 0)).sid = 32 :=
  (c6_sid_length_invariant_amended 1 {} (Session.fresh 0) (by decide)).1

/-- C2: whenever an ambient request-scoped session is present, an `errored`
status increments the current bucket's `errored` count by one (starting from
0 when unset) and leaves `exited` alone, any other status increments `exited`
and leaves `errored` alone, and the ambient session's status is cleared to
`undefined` afterwards; in particular two calls in the same truncated minute
on a fresh flusher — first with ambient status "errored", then with an
ambient session whose status is unset — yield exactly one bucket with
`errored: 1, exited: 1`. -/
theorem c2_increment_counts_by_ambient_status
    (inp : IncrInput) (st : FlusherState) (rs : Option String)
    (h : inp.requestSessionStatus = some rs) :
    ((rs = some "errored" →
        (bucketIn inp (SessionFlusher.incrementSessionCount inp st).1).errored
          = some ((bucketIn inp st).errored.getD 0 + 1)
      ∧ (bucketIn inp (SessionFlusher.incrementSessionCount inp st).1).exited
          = (bucketIn inp st).exited)
    ∧ (rs ≠ some "errored" →
        (bucketIn inp (SessionFlusher.incrementSessionCount inp st).1).exited
          = some ((bucketIn inp st).exited.getD 0 + 1)
      ∧ (bucketIn inp (SessionFlusher.incrementSessionCount inp st).1).errored
          = (bucketIn inp st).errored)
    ∧ (SessionFlusher.incrementSessionCount inp st).2 = some none)
  ∧ ((SessionFlusher.incrementSessionCount ⟨none, 0, 3630000, some none⟩
        (SessionFlusher.incrementSessionCount ⟨none, 0, 3600000, some (some "errored")⟩
          ⟨[], none⟩).1).1).pendingAggregates
      = [(3600000, { started := some (toISOString 3600000),
                     errored := some 1, exited := some 1 })] := by
  refine ⟨⟨?_, ?_, ?_⟩, by decide⟩
  · intro hrs
    subst hrs
    simp only [SessionFlusher.incrementSessionCount, h, bucketIn]
    simp [lookupBucket_setBucket]
    split <;> simp
  · intro hrs
    simp only [SessionFlusher.incrementSessionCount, h, bucketIn]
    simp [lookupBucket_setBucket, hrs]
    split <;> simp
  · simp [SessionFlusher.incrementSessionCount, h]

/-- C2 witness: one call with ambient status "errored" on a fresh flusher
clears the ambient status to `undefined`. -/
theorem c2_increment_witness :
    (SessionFlusher.incrementSessionCount ⟨none, 0, 3600000, some (some "errored")⟩
      ⟨[], none⟩).2 = some none :=
  (c2_increment_counts_by_ambient_status ⟨none, 0, 3600000, some (some "errored")⟩
    ⟨[], none⟩ (some "errored") rfl).1.2.2

/-- C3: `flush()` on an empty pending-aggregates table returns unchanged state
and never invokes the delivery capability; on a non-empty table it hands
`sendSessions` the payload made of the pre-flush `_sessionAttrs` and the
bucket values in insertion order, leaving an empty table and cleared
`_sessionAttrs` behind. -/
theorem c3_flush_snapshot_and_clear (t : Transport) (st : FlusherState) :
    (st.pendingAggregates = [] →
        SessionFlusher.flush st = (st, none) ∧ flushOutcome t st = none)
  ∧ (st.pendingAggregates ≠ [] →
        SessionFlusher.flush st
          = (⟨[], none⟩,
             some ⟨st.sessionAttrs, st.pendingAggregates.map Prod.snd⟩)) := by
  constructor
  · intro h
    constructor <;> simp [SessionFlusher.flush, flushOutcome, h]
  · intro h
    simp [SessionFlusher.flush, h]

/-- C3 witness: flushing an empty flusher changes nothing and produces no
delivery outcome. -/
theorem c3_flush_witness :
    SessionFlusher.flush ⟨[], none⟩ = (⟨[], none⟩, none)
  ∧ flushOutcome ⟨none⟩ ⟨[], none⟩ = none :=
  (c3_flush_snapshot_and_clear ⟨none⟩ ⟨[], none⟩).1 rfl

/-- C7: the serialized session contains no `undefined`-valued key, recursively
(the nested `attrs` object included), and the `did` key is present (as the
stringified value) exactly when `did` holds a string or a number, being
omitted otherwise. -/
theorem c7_toJSON_no_undefined_keys (s : Session) :
    noUndef (Session.toJSON s) = true
  ∧ getField "did" (Session.toJSON s)
      = (match s.did with
         | some (DidV.str v) => some (JVal.str v)
         | some (DidV.num n) => some (JVal.str (toString n))
         | none => none) := by
  rcases hdid : s.did with _ | (v | n) <;>
    rcases hr : s.release with _ | r <;>
    rcases he : s.environment with _ | e <;>
    rcases hi : s.ipAddress with _ | i <;>
    rcases hu : s.userAgent with _ | u <;>
    simp [Session.toJSON, dropUndefinedKeys, dropUndefinedFields, noUndef, noUndefFields,
      getField, findField, optStrJ, hdid, hr, he, hi, hu]

/-- C8: `sendSessions` warns and drops the payload when the delivery
capability is absent, otherwise delegates to it and maps a resolved promise to
a silent success and a rejected one to a logged (never rethrown, never
retried) failure; in no case does the call surface an unhandled throw to its
caller. -/
theorem c8_sendSessions_never_throws (t : Transport) (p : AggregatedSessions) :
    (t.sendSessions = none →
        SessionFlusher.sendSessions t p = SendOutcome.warnedAndDropped)
  ∧ (∀ f, t.sendSessions = some f →
        SessionFlusher.sendSessions t p
          = (match f p with
             | PromiseResult.resolved => SendOutcome.delivered
             | PromiseResult.rejected r => SendOutcome.failureLogged r))
  ∧ ∀ r, SessionFlusher.sendSessions t p ≠ SendOutcome.unhandledThrow r := by
  refine ⟨?_, ?_, ?_⟩
  · intro h
    simp [SessionFlusher.sendSessions, h]
  · intro f h
    cases hf : f p <;> simp [SessionFlusher.sendSessions, h, handleProm, hf]
  · intro r
    cases ht : t.sendSessions with
    | none => simp [SessionFlusher.sendSessions, ht]
    | some f => cases hf : f p <;> simp [SessionFlusher.sendSessions, ht, handleProm, hf]

/-- C8 witness: with no capability the payload is dropped with a warning. -/
theorem c8_sendSessions_witness :
    SessionFlusher.sendSessions ⟨none⟩ {} = SendOutcome.warnedAndDropped :=
  (c8_sendSessions_never_throws ⟨none⟩ {}).1 rfl

/-- C9 counterexample: with a strictly forward-moving clock (session created
at 0, updated at 50) an explicit `started: 100` in the context makes the
recomputed duration negative, so the claim fails as stated. -/
theorem c9_negative_duration_counterexample :
    (Session.update 50 { started := some 100 } (Session.fresh 0)).duration = -50
  ∧ (Session.update 50 { started := some 100 } (Session.fresh 0)).duration < 0 := by
  decide

theorem orStr_falsy (a b : Option String) (h : truthyStr a = false) : orStr a b = b := by
  cases a with
  | none => rfl
  | some s =>
      simp [truthyStr] at h
      simp [orStr, h]

theorem update_time_clean (now : Int) (ctx : SessionContext) (s : Session)
    (h : timeFieldsAbsent ctx) :
    (Session.update now ctx s).started = s.started
  ∧ (Session.update now ctx s).duration = now - s.started := by
  obtain ⟨h1, h2, h3⟩ := h
  constructor <;> simp [Session.update, h1, h2, h3, jsOrNum]

theorem close_time_clean (now : Int) (st : Option SessionStatus) (s : Session) :
    (Session.close now st s).started = s.started
  ∧ (Session.close now st s).duration = now - s.started := by
  cases st with
  | some x =>
      simpa [Session.close] using
        update_time_clean now { status := some x } s ⟨rfl, rfl, rfl⟩
  | none =>
      by_cases hok : s.status = SessionStatus.Ok
      · simpa [Session.close, hok] using
          update_time_clean now { status := some SessionStatus.Exited } s ⟨rfl, rfl, rfl⟩
      · simpa [Session.close, hok] using update_time_clean now {} s ⟨rfl, rfl, rfl⟩

theorem runOps_duration_aux (t0 : Int) (ops : List SessionOp) :
    ∀ s : Session, (∀ op ∈ ops, opClean op ∧ t0 ≤ opNow op) →
      s.started = t0 → 0 ≤ s.duration →
      0 ≤ (runOps ops s).duration ∧ (runOps ops s).started = t0 := by
  induction ops with
  | nil => intro s _ hs hd; exact ⟨hd, hs⟩
  | cons op rest ih =>
      intro s h hs hd
      have hop := h op (List.mem_cons_self _ _)
      have hrest := fun o ho => h o (List.mem_cons_of_mem _ ho)
      cases op with
      | upd now ctx =>
          obtain ⟨hclean, hnow⟩ := hop
          simp only [opClean] at hclean
          simp only [opNow] at hnow
          obtain ⟨hsta, hdur⟩ := update_time_clean now ctx s hclean
          simp only [runOps]
          exact ih _ hrest (by rw [hsta, hs]) (by rw [hdur, hs]; omega)
      | cls now st' =>
          obtain ⟨_, hnow⟩ := hop
          simp only [opNow] at hnow
          obtain ⟨hsta, hdur⟩ := close_time_clean now st' s
          simp only [runOps]
          exact ih _ hrest (by rw [hsta, hs]) (by rw [hdur, hs]; omega)

/-- C9 amended: for sequences of `update()`/`close()` calls that supply no
explicit `started`, `timestamp` or `duration` field, on a freshly created
session, with every `Date.now()` reading at or after the session's creation
time (a clock that never moves backwards), the duration is non-negative after
each operation (every prefix of such a sequence is again such a sequence).
Explicit `started`/`timestamp`/`duration` inputs can force a negative duration
even under a monotone clock. -/
theorem c9_duration_nonneg_amended (t0 : Int) (ops : List SessionOp)
    (h : ∀ op ∈ ops, opClean op ∧ t0 ≤ opNow op) :
    0 ≤ (runOps ops (Session.fresh t0)).duration :=
  (runOps_duration_aux t0 ops (Session.fresh t0) h rfl (le_refl 0)).1

/-- C9 witness: one plain update at time 5 of a session created at time 0. -/
theorem c9_duration_witness :
    0 ≤ (runOps [SessionOp.upd 5 {}] (Session.fresh 0)).duration :=
  c9_duration_nonneg_amended 0 [SessionOp.upd 5 {}]
    (by
      intro op hop
      rw [List.mem_singleton] at hop
      subst hop
      exact ⟨⟨rfl, rfl, rfl⟩, by decide⟩)

/-- C10 counterexample: with a previously set `did`, an update whose user has
`username: ""` (falsy, like the missing `id`/`email`) overwrites `did` with
the empty string, not with `undefined` as the claim states. -/
theorem c10_empty_username_counterexample :
    (Session.update 1 { user := some { username := some "" } }
        { Session.fresh 0 with did := some (DidV.str "olddid") }).did
      = some (DidV.str "")
  ∧ (Session.update 1 { user := some { username := some "" } }
        { Session.fresh 0 with did := some (DidV.str "olddid") }).did
      ≠ (none : Option DidV) := by
  decide

/-- C10 amended: when the context carries a user but no `did`, and none of the
user's `id`, `email`, `username` is truthy, `update()` overwrites `did` with
the raw `username` value — `undefined` when `username` is absent, the empty
string when `username` is `""` — so a previously set (truthy) `did` is always
erased rather than preserved. -/
theorem c10_did_overwritten_amended (now : Int) (s : Session) (ctx : SessionContext)
    (u : User) (hu : ctx.user = some u) (hd : ctx.did = none)
    (hid : truthyStr u.id = false) (hem : truthyStr u.email = false)
    (hun : truthyStr u.username = false) :
    (Session.update now ctx s).did = u.username.map DidV.str
  ∧ (u.username = none → (Session.update now ctx s).did = none)
  ∧ ∀ d, s.did = some d → truthyDid d = true → (Session.update now ctx s).did ≠ s.did := by
  have hmain : (Session.update now ctx s).did = u.username.map DidV.str := by
    simp [Session.update, hu, hd, truthyStr, orStr_falsy _ _ hid, orStr_falsy _ _ hem]
  refine ⟨hmain, ?_, ?_⟩
  · intro hn
    simp [hmain, hn]
  · intro d hsd htd
    rw [hmain, hsd]
    cases hv : u.username with
    | none => simp
    | some v =>
        have hveq : v = "" := by simpa [hv, truthyStr] using hun
        subst hveq
        cases d with
        | str w =>
            have hw : w ≠ "" := by simpa [truthyDid] using htd
            simp
            exact fun heq => hw heq.symm
        | num n => simp

/-- C10 witness: a user with no identifying fields erases a previously set
`did` to `undefined`. -/
theorem c10_did_witness :
    (Session.update 1 { user := some {} }
        { Session.fresh 0 with did := some (DidV.str "olddid") }).did = none :=
  (c10_did_overwritten_amended 1 { Session.fresh 0 with did := some (DidV.str "olddid") }
    { user := some {} } {} rfl rfl rfl rfl rfl).2.1 rfl

end Sentry
